import Mathlib

/-!
Shallow embedding of the transaction cost/compliance analysis engine of the
zk-lense CLI (src/cli/src/commands/simulate.rs): the compute-budget decoder
(parse_compute_budget_instructions), the fee and cost calculator, the
size/compliance validation and the report assembly (create_simulation_json).

Modelling conventions:
* Rust u8/u32/u64/usize values are modelled as Nat; u64 arithmetic that can
  overflow (the fee multiplication and additions) is taken modulo 2^64,
  matching the wrapping semantics of a release build.
* Solana public keys are modelled by their base58 text: Pubkey::from_str and
  Pubkey::to_string are mutually inverse on valid 32-byte keys, so equality
  of keys coincides with equality of the base58 strings.
* f64-valued derived metrics (percentages, ratios, SOL cost) are modelled as
  exact rationals; the fixed-precision decimal rendering of those values is
  a presentation concern and is not modelled.
* The external serializer (bincode) and the debug formatter of the opaque
  simulation error type are parameters of the report assembler.
-/

/-- Public keys are identified with their base58 text. -/
abbrev Pubkey := String

/-- One instruction inside a transaction message: an index into the account
key list naming the program, account indices, and raw instruction data. -/
structure CompiledInstruction where
  program_id_index : Nat
  accounts : List Nat
  data : List Nat
deriving Repr, DecidableEq

/-- Message header counters (all u8 in the source). -/
structure MessageHeader where
  num_required_signatures : Nat
  num_readonly_signed_accounts : Nat
  num_readonly_unsigned_accounts : Nat
deriving Repr, DecidableEq

/-- Transaction message: header, flattened account keys, instruction list. -/
structure Message where
  header : MessageHeader
  account_keys : List Pubkey
  instructions : List CompiledInstruction
deriving Repr, DecidableEq

/-- Transaction: attached signatures (modelled opaquely, only the count is
ever used) plus its message. -/
structure Transaction where
  signatures : List Nat
  message : Message
deriving Repr, DecidableEq

/-- Constant LAMPORTS_PER_SIGNATURE of simulate.rs. -/
def LAMPORTS_PER_SIGNATURE : Nat := 5000

/-- Constant MAX_COMPUTE_UNITS of simulate.rs. -/
def MAX_COMPUTE_UNITS : Nat := 1400000

/-- Constant DEFAULT_COMPUTE_UNITS of simulate.rs. -/
def DEFAULT_COMPUTE_UNITS : Nat := 200000

/-- Constant MAX_TRANSACTION_SIZE of simulate.rs. -/
def MAX_TRANSACTION_SIZE : Nat := 1232

/-- Constant LAMPORTS_PER_SOL of the SDK. -/
def LAMPORTS_PER_SOL : Nat := 1000000000

/-- Modulus of u64 arithmetic. -/
def U64_MOD : Nat := 2 ^ 64

/-- The well-known compute-budget program identifier (base58 text of the key
built with Pubkey::from_str in parse_compute_budget_instructions). -/
def computeBudgetProgramId : Pubkey := "ComputeBudget111111111111111111111111111111"

/-- Little-endian u32 from four bytes, as u32::from_le_bytes. -/
def u32FromLeBytes (b0 b1 b2 b3 : Nat) : Nat :=
  b0 + 256 * b1 + 65536 * b2 + 16777216 * b3

/-- Little-endian u64 from eight bytes, as u64::from_le_bytes. -/
def u64FromLeBytes (b0 b1 b2 b3 b4 b5 b6 b7 : Nat) : Nat :=
  b0 + 256 * b1 + 65536 * b2 + 16777216 * b3 + 4294967296 * b4
    + 1099511627776 * b5 + 281474976710656 * b6 + 72057594037927936 * b7

/-- Decoded compute-budget overrides: the two mutable locals of
parse_compute_budget_instructions. -/
structure CBOverrides where
  cu_limit : Nat
  cu_price : Nat
deriving Repr, DecidableEq

/-- Value written to cu_limit by a discriminant-2 instruction: the
little-endian u32 of data bytes 4..8 (simulate.rs line 134). -/
def limitValue (ix : CompiledInstruction) : Nat :=
  u32FromLeBytes (ix.data.getD 4 0) (ix.data.getD 5 0) (ix.data.getD 6 0) (ix.data.getD 7 0)

/-- Value written to cu_price by a discriminant-3 instruction: the
little-endian u64 of data bytes 4..12 (simulate.rs lines 137-139). -/
def priceValue (ix : CompiledInstruction) : Nat :=
  u64FromLeBytes (ix.data.getD 4 0) (ix.data.getD 5 0) (ix.data.getD 6 0) (ix.data.getD 7 0)
    (ix.data.getD 8 0) (ix.data.getD 9 0) (ix.data.getD 10 0) (ix.data.getD 11 0)

/-- One iteration of the instruction loop of parse_compute_budget_instructions
(simulate.rs lines 120-143): resolve the program id through account_keys at
program_id_index; when it is the compute-budget program and the data is long
enough, discriminant 2 overwrites cu_limit with the little-endian u32 of data
bytes 4..8 and discriminant 3 overwrites cu_price with the little-endian u64
of data bytes 4..12; every other instruction leaves the state unchanged. -/
def cbStep (keys : List Pubkey) (st : CBOverrides) (ix : CompiledInstruction) : CBOverrides :=
  if keys.get? ix.program_id_index = some computeBudgetProgramId then
    if 4 ≤ ix.data.length then
      if ix.data.getD 0 0 = 2 ∧ 8 ≤ ix.data.length then
        { st with cu_limit := limitValue ix }
      else if ix.data.getD 0 0 = 3 ∧ 12 ≤ ix.data.length then
        { st with cu_price := priceValue ix }
      else st
    else st
  else st

/-- Decoder parse_compute_budget_instructions (simulate.rs lines 113-146):
fold cbStep over the instruction list starting from the defaults. -/
def parse_compute_budget_instructions (tx : Transaction) : CBOverrides :=
  tx.message.instructions.foldl (cbStep tx.message.account_keys)
    { cu_limit := DEFAULT_COMPUTE_UNITS, cu_price := 0 }

/-- Compute budget usage percentage (simulate.rs lines 164-168), with the
division-by-zero guard returning 0. -/
def compute_budget_percentage_of (units_consumed compute_budget : Nat) : ℚ :=
  if compute_budget > 0 then (units_consumed : ℚ) / (compute_budget : ℚ) * 100 else 0

/-- Optional CU-limit warning (simulate.rs lines 171-178). -/
def cu_limit_warning (cu_limit : Nat) : Option String :=
  if cu_limit > MAX_COMPUTE_UNITS then
    some ("CU limit (" ++ toString cu_limit ++ ") exceeds maximum allowed ("
      ++ toString MAX_COMPUTE_UNITS ++ ")")
  else none

/-- Compute units per proof byte (simulate.rs lines 202-207), with the
division-by-zero guard returning 0. -/
def cu_per_proof_size_of (units_consumed total_proof_witness_size : Nat) : ℚ :=
  if total_proof_witness_size > 0 then
    (units_consumed : ℚ) / (total_proof_witness_size : ℚ)
  else 0

/-- Signature count used for fees (simulate.rs line 210): at least one. -/
def num_signatures_of (tx : Transaction) : Nat :=
  max tx.signatures.length 1

/-- Base fee (simulate.rs line 211): signatures times 5000, u64 arithmetic. -/
def base_fee_of (tx : Transaction) : Nat :=
  num_signatures_of tx * LAMPORTS_PER_SIGNATURE % U64_MOD

/-- Prioritization fee in lamports (simulate.rs line 214): the u64 product of
cu_limit and cu_price (wrapping on overflow) divided by one million. -/
def prioritization_fee_of (cu_limit cu_price : Nat) : Nat :=
  cu_limit * cu_price % U64_MOD / 1000000

/-- Total fee (simulate.rs line 215): base fee plus prioritization fee,
u64 arithmetic. -/
def total_fee_of (tx : Transaction) (cu_limit cu_price : Nat) : Nat :=
  (base_fee_of tx + prioritization_fee_of cu_limit cu_price) % U64_MOD

/-- Compute-usage suggestion (simulate.rs lines 236-244): the CU-limit
warning, when present, preempts the three usage tiers. -/
def compute_suggestion_of (warning : Option String) (pct : ℚ) : String :=
  match warning with
  | some w => w
  | none =>
    if pct > 90 then "Consider optimizing compute usage - near budget limit"
    else if pct > 70 then "Monitor compute usage - approaching budget limit"
    else "Compute usage is within acceptable range"

/-- Simulation outcome as returned by the external network simulator, with an
opaque error type. -/
structure SimResult (E : Type) where
  units_consumed : Option Nat
  logs : Option (List String)
  err : Option E
  return_data : Option (List Nat)

/-- The diagnostic report: the fields of the JSON document assembled by
create_simulation_json, with f64 values as exact rationals and the formatted
decimal strings left to the rendering layer. -/
structure Report where
  units_consumed : Nat
  compute_budget : Nat
  max_compute_units : Nat
  compute_budget_percentage : ℚ
  warning : Option String
  compute_suggestion : String
  proof_size : Nat
  witness_size : Nat
  total_proof_witness_size : Nat
  cu_per_proof_size : ℚ
  heap_size : Nat
  cost_in_sol : ℚ
  base_fee_per_signature : Nat
  num_signatures : Nat
  base_fee : Nat
  cu_limit : Nat
  cu_price_microlamports : Nat
  prioritization_fee : Nat
  priority_fee : Nat
  total_fee : Nat
  priority : ℚ
  fee_suggestion : String
  transaction_status : String
  error : Option String
  status_suggestion : String
  transaction_size : Nat
  message_size : Nat
  max_message_size : Nat
  message_within_size : Bool
  size_suggestion : String
  logs : List String
  log_count : Nat
  total_accounts : Nat
  writable_signed_accounts : Nat
  writable_unsigned_accounts : Nat
  total_writable_accounts : Nat
  readonly_signed_accounts : Nat
  readonly_unsigned_accounts : Nat
  recent_prioritization_fees : Option (List (Nat × Nat))
  program_id : String
  network : String
  rpc_url : String
  deserialization_success : Bool

/-- Report assembler create_simulation_json (simulate.rs lines 148-358).
The external collaborators appear as parameters: dbg is the debug formatter
of the opaque simulation error, txSer and msgSer are the bincode serializer
on transactions and messages (only byte lengths are used). All saturating
subtractions of the source coincide with truncated Nat subtraction. -/
def create_simulation_json {E : Type} (dbg : E → String)
    (txSer : Transaction → List Nat) (msgSer : Message → List Nat)
    (sim : SimResult E) (tx : Transaction)
    (proof_size witness_size : Nat)
    (fees : Option (List (Nat × Nat)))
    (program_id : Pubkey) (network rpc_url : String) : Report :=
  let units_consumed := sim.units_consumed.getD 0
  let ov := parse_compute_budget_instructions tx
  let compute_budget := ov.cu_limit
  let pct := compute_budget_percentage_of units_consumed compute_budget
  let warning := cu_limit_warning ov.cu_limit
  let transaction_size := (txSer tx).length
  let message_size := (msgSer tx.message).length
  let message_within_size := decide (message_size ≤ MAX_TRANSACTION_SIZE)
  let logs := sim.logs.getD []
  let transaction_status := if sim.err.isSome then "Failed" else "Success"
  let total_proof_witness_size := proof_size + witness_size
  let cpps := cu_per_proof_size_of units_consumed total_proof_witness_size
  let prioritization_fee_lamports := prioritization_fee_of ov.cu_limit ov.cu_price
  let total_fee := total_fee_of tx ov.cu_limit ov.cu_price
  let total_accounts := tx.message.account_keys.length
  let writable_signed := tx.message.header.num_required_signatures
    - tx.message.header.num_readonly_signed_accounts
  let writable_unsigned := total_accounts
    - tx.message.header.num_required_signatures
    - tx.message.header.num_readonly_unsigned_accounts
  let priority : ℚ :=
    if compute_budget > 0 then
      (prioritization_fee_lamports : ℚ) / (compute_budget : ℚ)
    else 0
  let size_suggestion :=
    if ¬ (message_size ≤ MAX_TRANSACTION_SIZE) then
      "Transaction size (" ++ toString message_size ++ ") exceeds maximum ("
        ++ toString MAX_TRANSACTION_SIZE ++ ")"
    else
      "Transaction size (" ++ toString message_size ++ ") is within limits"
  let fee_suggestion :=
    if prioritization_fee_lamports = 0 then
      "Consider adding priority fee for faster confirmation"
    else "Priority fee is set"
  { units_consumed := units_consumed
    compute_budget := compute_budget
    max_compute_units := MAX_COMPUTE_UNITS
    compute_budget_percentage := pct
    warning := warning
    compute_suggestion := compute_suggestion_of warning pct
    proof_size := proof_size
    witness_size := witness_size
    total_proof_witness_size := total_proof_witness_size
    cu_per_proof_size := cpps
    heap_size := (sim.return_data.map fun _ => 0).getD 0
    cost_in_sol := (total_fee : ℚ) / (LAMPORTS_PER_SOL : ℚ)
    base_fee_per_signature := LAMPORTS_PER_SIGNATURE
    num_signatures := num_signatures_of tx
    base_fee := base_fee_of tx
    cu_limit := ov.cu_limit
    cu_price_microlamports := ov.cu_price
    prioritization_fee := prioritization_fee_lamports
    priority_fee := prioritization_fee_lamports
    total_fee := total_fee
    priority := priority
    fee_suggestion := fee_suggestion
    transaction_status := transaction_status
    error := sim.err.map dbg
    status_suggestion :=
      if transaction_status = "Success" then "Transaction simulation successful"
      else "Review transaction error and fix issues"
    transaction_size := transaction_size
    message_size := message_size
    max_message_size := MAX_TRANSACTION_SIZE
    message_within_size := message_within_size
    size_suggestion := size_suggestion
    logs := logs
    log_count := logs.length
    total_accounts := total_accounts
    writable_signed_accounts := writable_signed
    writable_unsigned_accounts := writable_unsigned
    total_writable_accounts := writable_signed + writable_unsigned
    readonly_signed_accounts := tx.message.header.num_readonly_signed_accounts
    readonly_unsigned_accounts := tx.message.header.num_readonly_unsigned_accounts
    recent_prioritization_fees := fees
    program_id := program_id
    network := network
    rpc_url := rpc_url
    deserialization_success := transaction_status == "Success" }

/-! Characterization of the decoder, stated from the specification text: an
instruction is a limit write when its program id, resolved through the
account keys at its program id index, is the compute-budget program, its
first data byte is 2 and its data holds at least 8 bytes; price writes ask
for first byte 3 and at least 12 bytes. The decoded value is the one written
by the last such instruction, defaults when there is none. -/

/-- Predicate from the specification text: the instruction resolves to the
compute-budget program and is a well-formed set-compute-unit-limit
directive. -/
def isLimitWrite (keys : List Pubkey) (ix : CompiledInstruction) : Prop :=
  keys.get? ix.program_id_index = some computeBudgetProgramId
    ∧ ix.data.getD 0 0 = 2 ∧ 8 ≤ ix.data.length

instance (keys : List Pubkey) (ix : CompiledInstruction) : Decidable (isLimitWrite keys ix) := by
  unfold isLimitWrite; infer_instance

/-- Predicate from the specification text: the instruction resolves to the
compute-budget program and is a well-formed set-compute-unit-price
directive. -/
def isPriceWrite (keys : List Pubkey) (ix : CompiledInstruction) : Prop :=
  keys.get? ix.program_id_index = some computeBudgetProgramId
    ∧ ix.data.getD 0 0 = 3 ∧ 12 ≤ ix.data.length

instance (keys : List Pubkey) (ix : CompiledInstruction) : Decidable (isPriceWrite keys ix) := by
  unfold isPriceWrite; infer_instance

/-- Value of the last limit write of the list, from the specification text
(last-write-wins over the instruction order). -/
def lastLimitWrite (keys : List Pubkey) : List CompiledInstruction → Option Nat
  | [] => none
  | ix :: rest =>
    match lastLimitWrite keys rest with
    | some v => some v
    | none => if isLimitWrite keys ix then some (limitValue ix) else none

/-- Value of the last price write of the list, from the specification text. -/
def lastPriceWrite (keys : List Pubkey) : List CompiledInstruction → Option Nat
  | [] => none
  | ix :: rest =>
    match lastPriceWrite keys rest with
    | some v => some v
    | none => if isPriceWrite keys ix then some (priceValue ix) else none

/-- A limit write replaces cu_limit with the little-endian u32 of data bytes
4..8 and keeps everything else. -/
theorem cbStep_of_limitWrite (keys : List Pubkey) (st : CBOverrides)
    (ix : CompiledInstruction) (h : isLimitWrite keys ix) :
    cbStep keys st ix = { st with cu_limit := limitValue ix } := by
  obtain ⟨h1, h2, h3⟩ := h
  unfold cbStep
  rw [if_pos h1, if_pos (by omega : 4 ≤ ix.data.length), if_pos ⟨h2, h3⟩]

/-- A price write replaces cu_price with the little-endian u64 of data bytes
4..12 and keeps everything else. -/
theorem cbStep_of_priceWrite (keys : List Pubkey) (st : CBOverrides)
    (ix : CompiledInstruction) (h : isPriceWrite keys ix) :
    cbStep keys st ix = { st with cu_price := priceValue ix } := by
  obtain ⟨h1, h2, h3⟩ := h
  unfold cbStep
  rw [if_pos h1, if_pos (by omega : 4 ≤ ix.data.length),
    if_neg (by rw [h2]; simp), if_pos ⟨h2, h3⟩]

/-- An instruction that is not a limit write leaves cu_limit unchanged. -/
theorem cbStep_cu_limit_eq (keys : List Pubkey) (st : CBOverrides)
    (ix : CompiledInstruction) (h : ¬ isLimitWrite keys ix) :
    (cbStep keys st ix).cu_limit = st.cu_limit := by
  unfold cbStep
  by_cases h1 : keys.get? ix.program_id_index = some computeBudgetProgramId
  · rw [if_pos h1]
    by_cases h2 : 4 ≤ ix.data.length
    · rw [if_pos h2]
      by_cases h3 : ix.data.getD 0 0 = 2 ∧ 8 ≤ ix.data.length
      · exact absurd ⟨h1, h3.1, h3.2⟩ h
      · rw [if_neg h3]
        by_cases h4 : ix.data.getD 0 0 = 3 ∧ 12 ≤ ix.data.length
        · rw [if_pos h4]
        · rw [if_neg h4]
    · rw [if_neg h2]
  · rw [if_neg h1]

/-- An instruction that is not a price write leaves cu_price unchanged. -/
theorem cbStep_cu_price_eq (keys : List Pubkey) (st : CBOverrides)
    (ix : CompiledInstruction) (h : ¬ isPriceWrite keys ix) :
    (cbStep keys st ix).cu_price = st.cu_price := by
  unfold cbStep
  by_cases h1 : keys.get? ix.program_id_index = some computeBudgetProgramId
  · rw [if_pos h1]
    by_cases h2 : 4 ≤ ix.data.length
    · rw [if_pos h2]
      by_cases h3 : ix.data.getD 0 0 = 2 ∧ 8 ≤ ix.data.length
      · rw [if_pos h3]
      · rw [if_neg h3]
        by_cases h4 : ix.data.getD 0 0 = 3 ∧ 12 ≤ ix.data.length
        · exact absurd ⟨h1, h4.1, h4.2⟩ h
        · rw [if_neg h4]
    · rw [if_neg h2]
  · rw [if_neg h1]

/-- Folding the decoder step yields the last limit write, or keeps the
initial cu_limit when there is none. -/
theorem foldl_cbStep_cu_limit (keys : List Pubkey) (l : List CompiledInstruction) :
    ∀ st : CBOverrides,
      (l.foldl (cbStep keys) st).cu_limit = (lastLimitWrite keys l).getD st.cu_limit := by
  induction l with
  | nil => intro st; rfl
  | cons ix rest ih =>
    intro st
    rw [List.foldl_cons, ih]
    show (lastLimitWrite keys rest).getD (cbStep keys st ix).cu_limit
      = (lastLimitWrite keys (ix :: rest)).getD st.cu_limit
    simp only [lastLimitWrite]
    cases hr : lastLimitWrite keys rest with
    | some v => simp [hr]
    | none =>
      simp only [hr, Option.getD_none]
      by_cases hx : isLimitWrite keys ix
      · rw [cbStep_of_limitWrite keys st ix hx, if_pos hx]; rfl
      · rw [if_neg hx]
        simp [cbStep_cu_limit_eq keys st ix hx]

/-- Folding the decoder step yields the last price write, or keeps the
initial cu_price when there is none. -/
theorem foldl_cbStep_cu_price (keys : List Pubkey) (l : List CompiledInstruction) :
    ∀ st : CBOverrides,
      (l.foldl (cbStep keys) st).cu_price = (lastPriceWrite keys l).getD st.cu_price := by
  induction l with
  | nil => intro st; rfl
  | cons ix rest ih =>
    intro st
    rw [List.foldl_cons, ih]
    show (lastPriceWrite keys rest).getD (cbStep keys st ix).cu_price
      = (lastPriceWrite keys (ix :: rest)).getD st.cu_price
    simp only [lastPriceWrite]
    cases hr : lastPriceWrite keys rest with
    | some v => simp [hr]
    | none =>
      simp only [hr, Option.getD_none]
      by_cases hx : isPriceWrite keys ix
      · rw [cbStep_of_priceWrite keys st ix hx, if_pos hx]; rfl
      · rw [if_neg hx]
        simp [cbStep_cu_price_eq keys st ix hx]

/-- An instruction that does not resolve to the compute-budget program leaves
the decoder state unchanged. -/
theorem cbStep_eq_of_not_cb (keys : List Pubkey) (st : CBOverrides)
    (ix : CompiledInstruction)
    (h : ¬ keys.get? ix.program_id_index = some computeBudgetProgramId) :
    cbStep keys st ix = st := by
  unfold cbStep
  rw [if_neg h]

/-- Folding over instructions none of which resolves to the compute-budget
program leaves the decoder state unchanged. -/
theorem foldl_cbStep_id (keys : List Pubkey) (l : List CompiledInstruction) :
    ∀ st : CBOverrides,
      (∀ ix ∈ l, ¬ keys.get? ix.program_id_index = some computeBudgetProgramId) →
      l.foldl (cbStep keys) st = st := by
  induction l with
  | nil => intro st _; rfl
  | cons ix rest ih =>
    intro st h
    rw [List.foldl_cons, cbStep_eq_of_not_cb keys st ix (h ix (by simp))]
    exact ih st (fun i hi => h i (by simp [hi]))

/-- When no instruction of the list is a limit write, there is no last limit
write. -/
theorem lastLimitWrite_eq_none (keys : List Pubkey) (l : List CompiledInstruction)
    (h : ∀ ix ∈ l, ¬ isLimitWrite keys ix) : lastLimitWrite keys l = none := by
  induction l with
  | nil => rfl
  | cons ix rest ih =>
    simp only [lastLimitWrite]
    rw [ih (fun i hi => h i (by simp [hi]))]
    have hx : ¬ isLimitWrite keys ix := h ix (by simp)
    simp [hx]

/-- When no instruction of the list is a price write, there is no last price
write. -/
theorem lastPriceWrite_eq_none (keys : List Pubkey) (l : List CompiledInstruction)
    (h : ∀ ix ∈ l, ¬ isPriceWrite keys ix) : lastPriceWrite keys l = none := by
  induction l with
  | nil => rfl
  | cons ix rest ih =>
    simp only [lastPriceWrite]
    rw [ih (fun i hi => h i (by simp [hi]))]
    have hx : ¬ isPriceWrite keys ix := h ix (by simp)
    simp [hx]

/-- C1: the decoder resolves each program id through account_keys at the
program id index; every compute-budget instruction with first data byte 2 and
at least 8 data bytes writes the little-endian u32 of bytes 4..8 into
cu_limit, every one with first byte 3 and at least 12 bytes writes the
little-endian u64 of bytes 4..12 into cu_price, and later writes overwrite
earlier ones: the decoded values are those of the last such writes, defaults
when none exist. -/
theorem parse_cb_last_write_wins (tx : Transaction) :
    (parse_compute_budget_instructions tx).cu_limit
      = (lastLimitWrite tx.message.account_keys tx.message.instructions).getD
          DEFAULT_COMPUTE_UNITS
    ∧ (parse_compute_budget_instructions tx).cu_price
      = (lastPriceWrite tx.message.account_keys tx.message.instructions).getD 0 :=
  ⟨foldl_cbStep_cu_limit tx.message.account_keys tx.message.instructions _,
   foldl_cbStep_cu_price tx.message.account_keys tx.message.instructions _⟩

/-- C6: a transaction with no instruction of the compute-budget program
decodes to exactly the defaults cu_limit 200000 and cu_price 0. -/
theorem decode_defaults_no_cb_ix (tx : Transaction)
    (h : ∀ ix ∈ tx.message.instructions,
      ¬ tx.message.account_keys.get? ix.program_id_index = some computeBudgetProgramId) :
    parse_compute_budget_instructions tx
      = { cu_limit := DEFAULT_COMPUTE_UNITS, cu_price := 0 } :=
  foldl_cbStep_id tx.message.account_keys tx.message.instructions _ h

/-- A concrete transaction whose only instruction names a program other than
the compute-budget program. -/
def txNoCb : Transaction :=
  ⟨[0], ⟨⟨1, 0, 0⟩, ["payer1111111111111111111111111111", "OtherProgram111111111111111111111111"],
    [⟨1, [], [2, 0, 0, 0, 1, 0, 0, 0]⟩]⟩⟩

/-- Witness for C6 at a concrete transaction. -/
theorem decode_defaults_no_cb_ix_witness :
    parse_compute_budget_instructions txNoCb
      = { cu_limit := DEFAULT_COMPUTE_UNITS, cu_price := 0 } :=
  decode_defaults_no_cb_ix txNoCb (by decide)

/-- A concrete transaction whose only instruction has a program id index out
of range of its single account key. -/
def txOutOfRange : Transaction :=
  ⟨[0], ⟨⟨1, 0, 0⟩, [computeBudgetProgramId], [⟨5, [], [2, 0, 0, 0, 1, 0, 0, 0]⟩]⟩⟩

/-- C3 (counterexample): at a transaction whose instruction has an
out-of-range program id index, the decoder does not fail: it silently skips
the instruction and returns the defaults, refuting the claim that this
condition raises an error rather than degrading to defaults. -/
theorem out_of_range_returns_defaults_cex :
    txOutOfRange.message.account_keys.get?
        ((txOutOfRange.message.instructions.getD 0 ⟨0, [], []⟩).program_id_index) = none
    ∧ parse_compute_budget_instructions txOutOfRange
        = { cu_limit := DEFAULT_COMPUTE_UNITS, cu_price := 0 } := by
  decide

/-- C3 (amended): an out-of-range account index while resolving a program id
is not an error: the instruction is silently skipped, the decoder state is
unchanged by it, and a transaction all of whose instructions are out of range
decodes to the defaults. -/
theorem out_of_range_index_skipped :
    (∀ (keys : List Pubkey) (st : CBOverrides) (ix : CompiledInstruction),
        keys.get? ix.program_id_index = none → cbStep keys st ix = st)
    ∧ (∀ tx : Transaction,
        (∀ ix ∈ tx.message.instructions,
          tx.message.account_keys.get? ix.program_id_index = none) →
        parse_compute_budget_instructions tx
          = { cu_limit := DEFAULT_COMPUTE_UNITS, cu_price := 0 }) := by
  constructor
  · intro keys st ix h
    exact cbStep_eq_of_not_cb keys st ix
      (fun hc => Option.noConfusion (h ▸ hc))
  · intro tx h
    exact foldl_cbStep_id tx.message.account_keys tx.message.instructions _
      (fun ix hix hc => Option.noConfusion ((h ix hix) ▸ hc))

/-- Witness for the amended C3 at concrete inputs. -/
theorem out_of_range_index_skipped_witness :
    cbStep [computeBudgetProgramId] { cu_limit := 7, cu_price := 9 }
        ⟨5, [], [2, 0, 0, 0, 1, 0, 0, 0]⟩ = { cu_limit := 7, cu_price := 9 }
    ∧ parse_compute_budget_instructions txOutOfRange
        = { cu_limit := DEFAULT_COMPUTE_UNITS, cu_price := 0 } :=
  ⟨out_of_range_index_skipped.1 [computeBudgetProgramId] { cu_limit := 7, cu_price := 9 }
      ⟨5, [], [2, 0, 0, 0, 1, 0, 0, 0]⟩ (by decide),
   out_of_range_index_skipped.2 txOutOfRange (by decide)⟩

/-- C7: a compute-budget instruction whose data is neither a well-formed
limit directive (first byte 2, at least 8 bytes) nor a well-formed price
directive (first byte 3, at least 12 bytes) is silently ignored: the decoder
state is retained and no failure is possible, the step being total. -/
theorem malformed_cb_ix_ignored (keys : List Pubkey) (st : CBOverrides)
    (ix : CompiledInstruction)
    (hcb : keys.get? ix.program_id_index = some computeBudgetProgramId)
    (h2 : ¬ (ix.data.getD 0 0 = 2 ∧ 8 ≤ ix.data.length))
    (h3 : ¬ (ix.data.getD 0 0 = 3 ∧ 12 ≤ ix.data.length)) :
    cbStep keys st ix = st := by
  unfold cbStep
  rw [if_pos hcb]
  by_cases h4 : 4 ≤ ix.data.length
  · rw [if_pos h4, if_neg h2, if_neg h3]
  · rw [if_neg h4]

/-- Witness for C7: an unknown discriminant, a truncated limit directive and
empty data all leave a concrete state unchanged. -/
theorem malformed_cb_ix_ignored_witness :
    cbStep [computeBudgetProgramId] { cu_limit := 11, cu_price := 22 }
        ⟨0, [], [9, 0, 0, 0, 1, 1, 1, 1, 1, 1, 1, 1]⟩ = { cu_limit := 11, cu_price := 22 }
    ∧ cbStep [computeBudgetProgramId] { cu_limit := 11, cu_price := 22 }
        ⟨0, [], [2, 0, 0, 0, 5]⟩ = { cu_limit := 11, cu_price := 22 }
    ∧ cbStep [computeBudgetProgramId] { cu_limit := 11, cu_price := 22 }
        ⟨0, [], []⟩ = { cu_limit := 11, cu_price := 22 } :=
  ⟨malformed_cb_ix_ignored _ _ _ (by decide) (by decide) (by decide),
   malformed_cb_ix_ignored _ _ _ (by decide) (by decide) (by decide),
   malformed_cb_ix_ignored _ _ _ (by decide) (by decide) (by decide)⟩

/-- A concrete transaction carrying only a price directive. -/
def txPriceOnly : Transaction :=
  ⟨[0], ⟨⟨1, 0, 0⟩, [computeBudgetProgramId],
    [⟨0, [], [3, 0, 0, 0, 5, 0, 0, 0, 0, 0, 0, 0]⟩]⟩⟩

/-- A concrete transaction carrying only a limit directive. -/
def txLimitOnly : Transaction :=
  ⟨[0], ⟨⟨1, 0, 0⟩, [computeBudgetProgramId],
    [⟨0, [], [2, 0, 0, 0, 64, 66, 15, 0]⟩]⟩⟩

/-- C10: decoder updates are frame preserving: a limit write never changes
cu_price, a price write never changes cu_limit; consequently a transaction
with no limit write decodes cu_limit as the default 200000 and one with no
price write decodes cu_price as 0. -/
theorem decoder_frame_preservation :
    (∀ (keys : List Pubkey) (st : CBOverrides) (ix : CompiledInstruction),
        isLimitWrite keys ix → (cbStep keys st ix).cu_price = st.cu_price)
    ∧ (∀ (keys : List Pubkey) (st : CBOverrides) (ix : CompiledInstruction),
        isPriceWrite keys ix → (cbStep keys st ix).cu_limit = st.cu_limit)
    ∧ (∀ tx : Transaction,
        (∀ ix ∈ tx.message.instructions, ¬ isLimitWrite tx.message.account_keys ix) →
        (parse_compute_budget_instructions tx).cu_limit = DEFAULT_COMPUTE_UNITS)
    ∧ (∀ tx : Transaction,
        (∀ ix ∈ tx.message.instructions, ¬ isPriceWrite tx.message.account_keys ix) →
        (parse_compute_budget_instructions tx).cu_price = 0) := by
  refine ⟨?_, ?_, ?_, ?_⟩
  · intro keys st ix h
    rw [cbStep_of_limitWrite keys st ix h]
  · intro keys st ix h
    rw [cbStep_of_priceWrite keys st ix h]
  · intro tx h
    show (tx.message.instructions.foldl (cbStep tx.message.account_keys)
      { cu_limit := DEFAULT_COMPUTE_UNITS, cu_price := 0 }).cu_limit = DEFAULT_COMPUTE_UNITS
    rw [foldl_cbStep_cu_limit, lastLimitWrite_eq_none tx.message.account_keys _ h]
    rfl
  · intro tx h
    show (tx.message.instructions.foldl (cbStep tx.message.account_keys)
      { cu_limit := DEFAULT_COMPUTE_UNITS, cu_price := 0 }).cu_price = 0
    rw [foldl_cbStep_cu_price, lastPriceWrite_eq_none tx.message.account_keys _ h]
    rfl

/-- Witness for C10 at concrete inputs: a limit write keeps the price, a
price write keeps the limit, a price-only transaction keeps the default
limit, a limit-only transaction keeps the zero price. -/
theorem decoder_frame_preservation_witness :
    (cbStep [computeBudgetProgramId] { cu_limit := 7, cu_price := 9 }
        ⟨0, [], [2, 0, 0, 0, 1, 0, 0, 0]⟩).cu_price = 9
    ∧ (cbStep [computeBudgetProgramId] { cu_limit := 7, cu_price := 9 }
        ⟨0, [], [3, 0, 0, 0, 5, 0, 0, 0, 0, 0, 0, 0]⟩).cu_limit = 7
    ∧ (parse_compute_budget_instructions txPriceOnly).cu_limit = DEFAULT_COMPUTE_UNITS
    ∧ (parse_compute_budget_instructions txLimitOnly).cu_price = 0 :=
  ⟨decoder_frame_preservation.1 _ _ _ (by decide),
   decoder_frame_preservation.2.1 _ _ _ (by decide),
   decoder_frame_preservation.2.2.1 txPriceOnly (by decide),
   decoder_frame_preservation.2.2.2 txLimitOnly (by decide)⟩

/-- A concrete transaction that decodes to cu_limit 4 and cu_price 2 to the
62, whose fee product overflows u64. -/
def txFeeOverflow : Transaction :=
  ⟨[0], ⟨⟨1, 0, 0⟩, [computeBudgetProgramId],
    [⟨0, [], [2, 0, 0, 0, 4, 0, 0, 0]⟩, ⟨0, [], [3, 0, 0, 0, 0, 0, 0, 0, 0, 0, 0, 64]⟩]⟩⟩

/-- C2 (counterexample): overrides reachable by decoding a transaction make
the u64 product of cu_limit and cu_price wrap, so the computed prioritization
fee (0) differs from the exact floor of the product over one million. -/
theorem fee_truncation_overflow_cex :
    parse_compute_budget_instructions txFeeOverflow
      = { cu_limit := 4, cu_price := 4611686018427387904 }
    ∧ prioritization_fee_of 4 4611686018427387904 = 0
    ∧ 4 * 4611686018427387904 / 1000000 = 18446744073709
    ∧ prioritization_fee_of 4 4611686018427387904 ≠ 4 * 4611686018427387904 / 1000000 := by
  decide

/-- C2 (amended): provided the u64 quantities do not overflow, the base fee
is the signature count (at least one) times 5000 lamports, the priority fee
is the truncating integer division of cu_limit times cu_price by one million,
and the total fee is their exact sum. -/
theorem fee_formulas (tx : Transaction) (cu_limit cu_price : Nat)
    (h1 : max tx.signatures.length 1 * 5000 < U64_MOD)
    (h2 : cu_limit * cu_price < U64_MOD)
    (h3 : max tx.signatures.length 1 * 5000 + cu_limit * cu_price / 1000000 < U64_MOD) :
    base_fee_of tx = max tx.signatures.length 1 * 5000
    ∧ prioritization_fee_of cu_limit cu_price = cu_limit * cu_price / 1000000
    ∧ total_fee_of tx cu_limit cu_price
        = base_fee_of tx + prioritization_fee_of cu_limit cu_price := by
  have hb : base_fee_of tx = max tx.signatures.length 1 * 5000 := by
    show max tx.signatures.length 1 * 5000 % U64_MOD = max tx.signatures.length 1 * 5000
    exact Nat.mod_eq_of_lt h1
  have hp : prioritization_fee_of cu_limit cu_price = cu_limit * cu_price / 1000000 := by
    unfold prioritization_fee_of
    rw [Nat.mod_eq_of_lt h2]
  refine ⟨hb, hp, ?_⟩
  show (base_fee_of tx + prioritization_fee_of cu_limit cu_price) % U64_MOD = _
  exact Nat.mod_eq_of_lt (by rw [hb, hp]; exact h3)

/-- Witness for the amended C2 at a concrete transaction with one signature,
cu_limit 200000 and cu_price 10000 microlamports. -/
theorem fee_formulas_witness :
    base_fee_of txLimitOnly = max txLimitOnly.signatures.length 1 * 5000
    ∧ prioritization_fee_of 200000 10000 = 200000 * 10000 / 1000000
    ∧ total_fee_of txLimitOnly 200000 10000
        = base_fee_of txLimitOnly + prioritization_fee_of 200000 10000 :=
  fee_formulas txLimitOnly 200000 10000 (by decide) (by decide) (by decide)

/-- C5: both derived ratios are guarded against division by zero and return
0 in the degenerate case; otherwise they equal the exact quotients. -/
theorem division_guards (units_consumed cu_limit proof_size witness_size : Nat) :
    (cu_limit = 0 → compute_budget_percentage_of units_consumed cu_limit = 0)
    ∧ (0 < cu_limit →
        compute_budget_percentage_of units_consumed cu_limit
          = (units_consumed : ℚ) / (cu_limit : ℚ) * 100)
    ∧ (proof_size = 0 ∧ witness_size = 0 →
        cu_per_proof_size_of units_consumed (proof_size + witness_size) = 0)
    ∧ (0 < proof_size + witness_size →
        cu_per_proof_size_of units_consumed (proof_size + witness_size)
          = (units_consumed : ℚ) / ((proof_size : ℚ) + (witness_size : ℚ))) := by
  refine ⟨?_, ?_, ?_, ?_⟩
  · intro h
    subst h
    simp [compute_budget_percentage_of]
  · intro h
    unfold compute_budget_percentage_of
    rw [if_pos h]
  · rintro ⟨h1, h2⟩
    subst h1
    subst h2
    simp [cu_per_proof_size_of]
  · intro h
    unfold cu_per_proof_size_of
    rw [if_pos h, Nat.cast_add]

/-- Witness for C5 at concrete values, including both degenerate cases. -/
theorem division_guards_witness :
    compute_budget_percentage_of 150000 0 = 0
    ∧ compute_budget_percentage_of 150000 200000 = (150000 : ℚ) / 200000 * 100
    ∧ cu_per_proof_size_of 150000 (0 + 0) = 0
    ∧ cu_per_proof_size_of 150000 (100 + 28) = (150000 : ℚ) / (100 + 28) := by
  refine ⟨(division_guards 150000 0 0 0).1 rfl,
    (division_guards 150000 200000 0 0).2.1 (by decide),
    (division_guards 150000 0 0 0).2.2.1 ⟨rfl, rfl⟩, ?_⟩
  have h := (division_guards 150000 0 100 28).2.2.2 (by decide)
  exact h.trans (by norm_num)

/-- A concrete transaction overriding cu_limit to 1500000, above the
1400000 maximum. -/
def txBigLimit : Transaction :=
  ⟨[0], ⟨⟨1, 0, 0⟩, [computeBudgetProgramId], [⟨0, [], [2, 0, 0, 0, 96, 227, 22, 0]⟩]⟩⟩

/-- C4 (counterexample): a transaction can set cu_limit to 1500000; with
1450000 units consumed the usage exceeds 90 percent, yet the suggestion is
the CU-limit warning text, not the near-budget-limit tier, refuting that the
suggestion is selected by exactly three thresholds for every input. -/
theorem compute_suggestion_warning_cex :
    parse_compute_budget_instructions txBigLimit = { cu_limit := 1500000, cu_price := 0 }
    ∧ compute_budget_percentage_of 1450000 1500000 > 90
    ∧ compute_suggestion_of (cu_limit_warning 1500000)
        (compute_budget_percentage_of 1450000 1500000)
      ≠ "Consider optimizing compute usage - near budget limit" := by
  refine ⟨by decide, ?_, by decide⟩
  unfold compute_budget_percentage_of
  norm_num

/-- C4 (amended): whenever cu_limit does not exceed MAX_COMPUTE_UNITS (so no
warning preempts), the compute-usage suggestion follows exactly the three
fixed thresholds on the usage percentage: above 90 the near-budget-limit
text, above 70 and at most 90 the approaching-budget-limit text, otherwise
the within-acceptable-range text. -/
theorem compute_suggestion_three_tiers (cu_limit units_consumed : Nat)
    (h : cu_limit ≤ MAX_COMPUTE_UNITS) :
    (compute_budget_percentage_of units_consumed cu_limit > 90 →
      compute_suggestion_of (cu_limit_warning cu_limit)
          (compute_budget_percentage_of units_consumed cu_limit)
        = "Consider optimizing compute usage - near budget limit")
    ∧ (compute_budget_percentage_of units_consumed cu_limit > 70
        ∧ compute_budget_percentage_of units_consumed cu_limit ≤ 90 →
      compute_suggestion_of (cu_limit_warning cu_limit)
          (compute_budget_percentage_of units_consumed cu_limit)
        = "Monitor compute usage - approaching budget limit")
    ∧ (compute_budget_percentage_of units_consumed cu_limit ≤ 70 →
      compute_suggestion_of (cu_limit_warning cu_limit)
          (compute_budget_percentage_of units_consumed cu_limit)
        = "Compute usage is within acceptable range") := by
  have hw : cu_limit_warning cu_limit = none := by
    unfold cu_limit_warning
    rw [if_neg (not_lt.mpr h)]
  rw [hw]
  refine ⟨?_, ?_, ?_⟩
  · intro hp
    unfold compute_suggestion_of
    rw [if_pos hp]
  · rintro ⟨hp1, hp2⟩
    unfold compute_suggestion_of
    rw [if_neg (not_lt.mpr hp2), if_pos hp1]
  · intro hp
    unfold compute_suggestion_of
    rw [if_neg (not_lt.mpr (hp.trans (by norm_num))), if_neg (not_lt.mpr hp)]

/-- Witness for the amended C4: the scenario of the specification, default
cu_limit 200000 and 150000 consumed units (75 percent usage), selects the
approaching-budget-limit tier. -/
theorem compute_suggestion_three_tiers_witness :
    compute_suggestion_of (cu_limit_warning 200000)
        (compute_budget_percentage_of 150000 200000)
      = "Monitor compute usage - approaching budget limit" := by
  refine (compute_suggestion_three_tiers 200000 150000 (by decide)).2.1 ⟨?_, ?_⟩
  · unfold compute_budget_percentage_of
    norm_num
  · unfold compute_budget_percentage_of
    norm_num

/-- C8: the report's transaction status is the string Success exactly when
the simulation error is absent and Failed otherwise, and the error field
carries the opaque error's debug representation verbatim. -/
theorem report_status_classification {E : Type} (dbg : E → String)
    (txSer : Transaction → List Nat) (msgSer : Message → List Nat)
    (sim : SimResult E) (tx : Transaction) (proof_size witness_size : Nat)
    (fees : Option (List (Nat × Nat))) (program_id : Pubkey) (network rpc_url : String) :
    ((create_simulation_json dbg txSer msgSer sim tx proof_size witness_size fees
        program_id network rpc_url).transaction_status
      = if sim.err.isSome then "Failed" else "Success")
    ∧ ((create_simulation_json dbg txSer msgSer sim tx proof_size witness_size fees
        program_id network rpc_url).transaction_status = "Success" ↔ sim.err = none)
    ∧ (create_simulation_json dbg txSer msgSer sim tx proof_size witness_size fees
        program_id network rpc_url).error = sim.err.map dbg := by
  refine ⟨rfl, ?_, rfl⟩
  cases he : sim.err with
  | none => simp [create_simulation_json, he]
  | some e => simp [create_simulation_json, he]

/-- C9: report assembly is deterministic: two invocations of the assembler
on identical inputs (same simulation outcome, transaction, proof and witness
sizes, prioritization fees, program id, network and RPC URL) produce the
identical report, the assembler being a pure function of those inputs. -/
theorem report_assembly_deterministic {E : Type} (dbg : E → String)
    (txSer : Transaction → List Nat) (msgSer : Message → List Nat)
    (sim sim2 : SimResult E) (tx tx2 : Transaction) (ps ps2 ws ws2 : Nat)
    (fees fees2 : Option (List (Nat × Nat))) (pid pid2 : Pubkey)
    (net net2 url url2 : String)
    (h : (sim, tx, ps, ws, fees, pid, net, url)
      = (sim2, tx2, ps2, ws2, fees2, pid2, net2, url2)) :
    create_simulation_json dbg txSer msgSer sim tx ps ws fees pid net url
      = create_simulation_json dbg txSer msgSer sim2 tx2 ps2 ws2 fees2 pid2 net2 url2 := by
  simp only [Prod.mk.injEq] at h
  obtain ⟨h1, h2, h3, h4, h5, h6, h7, h8⟩ := h
  subst h1 h2 h3 h4 h5 h6 h7 h8
  rfl

/-- A concrete simulation outcome without error. -/
def simOk : SimResult Nat := ⟨some 150000, some ["ok"], none, none⟩

/-- A concrete simulation outcome with an opaque error. -/
def simBad : SimResult Nat := ⟨some 150000, none, some 42, none⟩

/-- Witness for C9 at concrete inputs. -/
theorem report_assembly_deterministic_witness :
    create_simulation_json (fun n : Nat => toString n) (fun _ => []) (fun _ => [])
        simOk txLimitOnly 100 28 none "Prog" "devnet" "http" 
      = create_simulation_json (fun n : Nat => toString n) (fun _ => []) (fun _ => [])
        simOk txLimitOnly 100 28 none "Prog" "devnet" "http" :=
  report_assembly_deterministic (fun n : Nat => toString n) (fun _ => []) (fun _ => [])
    simOk simOk txLimitOnly txLimitOnly 100 100 28 28 none none "Prog" "Prog"
    "devnet" "devnet" "http" "http" rfl
